import Mathlib

/-!
Verification development for the CloudflareBypassForScraping client scripts.

The repository consists of three Python scripts that act as thin clients to an
external cookie-refresh HTTP service:

* `interactive_refresh.py` — the full menu-driven tool (`CookieRefresherCLI`
  plus the module-level helpers `refresh_single_url`, `batch_refresh`,
  `save_result_to_file`, `save_batch_results`);
* `quick_refresh.py` — the simplified single-loop tool
  (`refresh_and_display` plus the inline main loop);
* `refresh_example.py` — the scripted demo runner (`CacheFreshener` plus the
  `demo_*` coroutines).

This file gives a shallow embedding of the pure, decidable fragment of those
scripts: string/URL handling, response dispatching, display formatting, batch
orchestration (as an explicit event trace) and the documents written by the
persistence helpers.  Network I/O is modelled by an explicit `NetOutcome`
value describing how the one HTTP request of each client call ended (the
response status and parsed JSON body, or the exception that was raised), and
`print` calls are modelled by the list of strings printed, in order.
-/

/-! ## Python string primitives

Python `str` values are modelled by Lean `String`; the handful of `str`
operations the scripts use are embedded at the character-list level so that
they are directly executable and kernel-reducible. -/

/-- Embedding of Python `s.startswith(pre)` (single-prefix form). -/
def py_startswith (s pre : String) : Bool :=
  pre.data.isPrefixOf s.data

/-- Embedding of Python `len(s)` (number of characters). -/
def py_len (s : String) : Nat :=
  s.data.length

/-- Embedding of the Python slice `s[:n]` (first `n` characters). -/
def py_take (s : String) (n : Nat) : String :=
  String.mk (s.data.take n)

/-- Embedding of Python `s * n` repetition for building separator lines. -/
def py_repeat (s : String) (n : Nat) : String :=
  String.join (List.replicate n s)

/-- Embedding of Python `s.lower()` (ASCII-relevant fragment). -/
def py_lower (s : String) : String :=
  String.mk (s.data.map Char.toLower)

/-- Embedding of Python `s.strip()` (default whitespace strip). -/
def py_strip (s : String) : String :=
  String.mk (((s.data.dropWhile Char.isWhitespace).reverse.dropWhile Char.isWhitespace).reverse)

/-- How a Python f-string renders an optional string (`None` prints as the
literal text `None`). -/
def py_show_opt_str : Option String → String
  | none => "None"
  | some s => s

/-- How a Python f-string renders an optional integer (`None` prints as the
literal text `None`). -/
def py_show_opt_int : Option Int → String
  | none => "None"
  | some n => toString n

/-- Rendering of the Python expression `f"{n/1000:.1f}"` for the millisecond
counters of these scripts: integer part and one decimal digit of `n / 1000`.
(The embedding truncates the second decimal digit instead of reproducing
IEEE-754 round-half-even; no claim below inspects a value where the two
differ — the witnesses only evaluate it at exact multiples of 100 ms.) -/
def fmt_div1000 (n : Int) : String :=
  toString (n / 1000) ++ "." ++ toString ((n % 1000) / 100)

/-! ## Model of `urllib.parse.urlparse`

Only the `scheme` and `netloc` components are consumed by the scripts, so the
embedding computes exactly those, following CPython `urllib.parse.urlsplit`:
a scheme is split off at the first `:` when the prefix is a non-empty run of
scheme characters starting with an ASCII letter; a netloc is present exactly
when the remainder starts with `//`, and extends to the next `/`, `?` or `#`;
a netloc with unbalanced square brackets raises `ValueError` (modelled as
`Except.error`). -/

structure UrlParts where
  scheme : String
  netloc : String
deriving DecidableEq

/-- Characters allowed in a URL scheme (CPython `scheme_chars`). -/
def isSchemeChar (c : Char) : Bool :=
  c.isAlpha || c.isDigit || c == '+' || c == '-' || c == '.'

/-- Whether the first character is an ASCII letter (CPython checks
`url[0].isascii() and url[0].isalpha()`). -/
def headAlpha : List Char → Bool
  | [] => false
  | c :: _ => c.isAlpha

/-- Split a scheme off the URL: returns the (lower-cased) scheme and the rest
after the `:`, or an empty scheme and the whole input. -/
def split_scheme (cs : List Char) : String × List Char :=
  match cs.findIdx? (fun c => c == ':') with
  | some i =>
      if (i != 0) && headAlpha cs && (cs.take i).all isSchemeChar then
        (String.mk ((cs.take i).map Char.toLower), cs.drop (i + 1))
      else ("", cs)
  | none => ("", cs)

/-- Extract the netloc from the post-scheme remainder: non-empty only when the
remainder starts with `//`, up to the next `/`, `?` or `#`. -/
def split_netloc : List Char → List Char
  | '/' :: '/' :: rest => rest.takeWhile (fun c => !(c == '/' || c == '?' || c == '#'))
  | _ => []

/-- Embedding of `urllib.parse.urlparse` restricted to the components the
scripts read; `Except.error` models the `ValueError` raised on an invalid
IPv6 netloc (unbalanced square brackets). -/
def urlsplit (url : String) : Except Unit UrlParts :=
  let sc := split_scheme url.data
  let nl := split_netloc sc.2
  if (nl.contains '[' && !(nl.contains ']')) || (nl.contains ']' && !(nl.contains '[')) then
    Except.error ()
  else
    Except.ok { scheme := sc.1, netloc := String.mk nl }

/-- A URL "lacks a network location after normalization" when parsing either
yields an empty `netloc` or raises. -/
def netlocMissing (url : String) : Bool :=
  match urlsplit url with
  | Except.ok p => p.netloc == ""
  | Except.error _ => true

/-- The netloc as read by `urlparse(url).netloc` at points where the scripts
use it directly (filenames, progress lines); the error case is unreachable
there because such URLs were parsed earlier. -/
def netloc_of (url : String) : String :=
  match urlsplit url with
  | Except.ok p => p.netloc
  | Except.error _ => ""

/-! ## Server responses, exceptions, timestamps -/

/-- The JSON object of a `/cache/refresh` response, success or failure.  The
external contract (spec §6) uses exactly the keys below; a field is `none`
when the key is absent from the JSON document. -/
structure ServerBody where
  status : Option String := none
  hostname : Option String := none
  cookies_count : Option Int := none
  user_agent : Option String := none
  generation_time_ms : Option Int := none
  detail : Option String := none
deriving DecidableEq

/-- The keys present in a `ServerBody` JSON document, in contract order. -/
def ServerBody.keys (r : ServerBody) : List String :=
  (if r.status.isSome then ["status"] else [])
    ++ (if r.hostname.isSome then ["hostname"] else [])
    ++ (if r.cookies_count.isSome then ["cookies_count"] else [])
    ++ (if r.user_agent.isSome then ["user_agent"] else [])
    ++ (if r.generation_time_ms.isSome then ["generation_time_ms"] else [])
    ++ (if r.detail.isSome then ["detail"] else [])

/-- How the single HTTP request of a client call ended: a response with a
status code and parsed JSON body, or one of the exceptions the scripts
handle.  Each exception constructor carries `str(e)`, the text the exception
renders to (produced by `aiohttp`/`asyncio`, outside this repository). -/
inductive NetOutcome where
  | resp (status : Nat) (body : ServerBody)
  | timeout (txt : String)
  | connector (txt : String)
  | otherExc (txt : String)
deriving DecidableEq

/-- Python exceptions raised (and caught) inside the display code. -/
inductive PyErr where
  | typeError
  | keyError
deriving DecidableEq

/-- `str(e)` for the modelled exceptions (apostrophes of the CPython text are
omitted). -/
def py_err_str : PyErr → String
  | PyErr.typeError => "unsupported operand type(s) for /: NoneType and int"
  | PyErr.keyError => "status"

/-- A `datetime.datetime` value as read by `datetime.now()`. -/
structure PyDateTime where
  year : Nat
  month : Nat
  day : Nat
  hour : Nat
  minute : Nat
  second : Nat
  microsecond : Nat
deriving DecidableEq

/-- Zero-pad to two digits (`%m`, `%d`, `%H`, `%M`, `%S`). -/
def pad2 (n : Nat) : String :=
  if n < 10 then "0" ++ toString n else toString n

/-- Zero-pad to four digits (`%Y`). -/
def pad4 (n : Nat) : String :=
  if n < 10 then "000" ++ toString n
  else if n < 100 then "00" ++ toString n
  else if n < 1000 then "0" ++ toString n
  else toString n

/-- Zero-pad to six digits (isoformat microseconds). -/
def pad6 (n : Nat) : String :=
  if n < 10 then "00000" ++ toString n
  else if n < 100 then "0000" ++ toString n
  else if n < 1000 then "000" ++ toString n
  else if n < 10000 then "00" ++ toString n
  else if n < 100000 then "0" ++ toString n
  else toString n

/-- Embedding of `datetime.strftime("%Y%m%d_%H%M%S")`. -/
def strftime_ymd_hms (t : PyDateTime) : String :=
  pad4 t.year ++ pad2 t.month ++ pad2 t.day ++ "_"
    ++ pad2 t.hour ++ pad2 t.minute ++ pad2 t.second

/-- Embedding of `datetime.isoformat()` (ISO-8601; the fractional part is
present exactly when the microsecond field is non-zero). -/
def isoformat (t : PyDateTime) : String :=
  pad4 t.year ++ "-" ++ pad2 t.month ++ "-" ++ pad2 t.day ++ "T"
    ++ pad2 t.hour ++ ":" ++ pad2 t.minute ++ ":" ++ pad2 t.second
    ++ (if t.microsecond == 0 then "" else "." ++ pad6 t.microsecond)

/-- The field names of a `RefreshResult` per the external contract (spec §3
and §6, success body of `/cache/refresh`). -/
def refreshResultFields : List String :=
  ["status", "hostname", "cookies_count", "user_agent", "generation_time_ms"]

/-! ## `interactive_refresh.py` — the full menu-driven tool -/

namespace Interactive

/-- `CookieRefresherCLI.format_url` (lines 169–173): prepend `https://` when
the input carries neither `http://` nor `https://`. -/
def format_url (url : String) : String :=
  if !(py_startswith url "http://" || py_startswith url "https://") then
    "https://" ++ url
  else url

/-- `CookieRefresherCLI.validate_url` (lines 161–167): parse and require a
truthy (non-empty) scheme and netloc; a parse error yields `False`. -/
def validate_url (url : String) : Bool :=
  match urlsplit url with
  | Except.ok p => !(p.scheme == "") && !(p.netloc == "")
  | Except.error _ => false

/-- `CookieRefresherCLI.refresh_cookies` (lines 37–73): the progress lines
printed before the request, then dispatch on how the request ended.  Returns
the printed lines and the Python return value (`Some body` for HTTP 200,
`none` — Python `None` — on every handled error). -/
def refresh_cookies (server_url url : String) (proxy : Option String)
    (o : NetOutcome) : List String × Option ServerBody :=
  let pre := ["\n⏳ 正在刷新 " ++ url ++ "..."]
      ++ (match proxy with
          | some p => ["   使用代理: " ++ p]
          | none => [])
      ++ ["   请稍候，这可能需要 10-30 秒...\n"]
  match o with
  | NetOutcome.resp st body =>
      if st == 200 then (pre, some body)
      else
        (pre ++ ["❌ 错误 (状态码: " ++ toString st ++ ")",
                 "   " ++ body.detail.getD "未知错误"], none)
  | NetOutcome.timeout _ =>
      (pre ++ ["❌ 请求超时 - 服务器响应时间过长"], none)
  | NetOutcome.connector _ =>
      (pre ++ ["❌ 无法连接到服务器 (" ++ server_url ++ ")",
               "   请确保服务器已启动"], none)
  | NetOutcome.otherExc t =>
      (pre ++ ["❌ 请求失败: " ++ t], none)

/-- `CookieRefresherCLI.display_result` (lines 94–120): each `print` call in
order; every field is read with `dict.get` and a default, so the function is
total on arbitrary bodies and substitutes `N/A`, `0` or the empty string for
missing fields. -/
def display_result (r : ServerBody) : List String :=
  let g := r.generation_time_ms.getD 0
  let ua := r.user_agent.getD ""
  ["\n" ++ py_repeat "=" 70,
   "✅ Cookie 刷新成功！",
   py_repeat "=" 70,
   "\n📌 目标网址信息:",
   "   主机名: " ++ r.hostname.getD "N/A",
   "\n🍪 Cookie 信息:",
   "   总数: " ++ toString (r.cookies_count.getD 0) ++ " 个"]
  ++ (if ua == "" then []
      else ["\n🌐 User-Agent:", "   " ++ ua])
  ++ ["\n⏱️  性能:",
      "   生成耗时: " ++ toString g ++ " ms (" ++ fmt_div1000 g ++ " 秒)",
      "\n" ++ py_repeat "=" 70]

/-- `name.startswith(('cf_', '__cf'))` (line 137). -/
def is_cf_name (name : String) : Bool :=
  py_startswith name "cf_" || py_startswith name "__cf"

/-- The `cf_cookies` dict built by `display_cookies` (lines 133–140); a
Python dict is insertion-ordered, hence the list model. -/
def cf_cookies (cs : List (String × String)) : List (String × String) :=
  cs.filter (fun p => is_cf_name p.1)

/-- The `other_cookies` dict built by `display_cookies` (lines 133–140). -/
def other_cookies (cs : List (String × String)) : List (String × String) :=
  cs.filter (fun p => !is_cf_name p.1)

/-- The `value_preview` expression (lines 146 and 153): truncate to the first
40 characters plus an ellipsis when longer than 40 characters. -/
def value_preview (v : String) : String :=
  if py_len v > 40 then py_take v 40 ++ "..." else v

/-- One bullet line of `display_cookies` (lines 147 and 154). -/
def cookie_line (p : String × String) : String :=
  "   • " ++ p.1 ++ ": " ++ value_preview p.2

/-- The three content blocks of `CookieRefresherCLI.display_cookies` (lines
122–159): the Cloudflare-section bullet lines, the first-5 other-section
bullet lines, and the `... 还有 N 个` remainder line printed when more than 5
other cookies exist. -/
structure CookieSections where
  cfLines : List String
  otherLines : List String
  restLine : Option String
deriving DecidableEq

/-- Structured content of `display_cookies` (lines 142–157). -/
def display_cookies_sections (cs : List (String × String)) : CookieSections :=
  { cfLines := (cf_cookies cs).map cookie_line
    otherLines := ((other_cookies cs).take 5).map cookie_line
    restLine :=
      if (other_cookies cs).length > 5 then
        some ("   ... 还有 " ++ toString ((other_cookies cs).length - 5) ++ " 个")
      else none }

/-- The full print list of `CookieRefresherCLI.display_cookies` (lines
122–159), assembled from the sections exactly as the `print` calls run. -/
def display_cookies (url : String) (cs : List (String × String)) : List String :=
  let s := display_cookies_sections cs
  ["\n" ++ py_repeat "=" 70,
   "🍪 获取的 Cookie 详情",
   py_repeat "=" 70,
   "\n📌 网址: " ++ netloc_of url,
   "   总 Cookie 数: " ++ toString cs.length ++ "\n"]
  ++ (if (cf_cookies cs).isEmpty then []
      else "🔐 Cloudflare Cookie:" :: s.cfLines)
  ++ (if (other_cookies cs).isEmpty then []
      else ("\n📦 其他 Cookie (" ++ toString (other_cookies cs).length ++ " 个):")
             :: s.otherLines ++ (match s.restLine with
                                 | some l => [l]
                                 | none => []))
  ++ ["\n" ++ py_repeat "=" 70]

/-- The URL-handling prefix of `refresh_single_url` (lines 210–224): strip
the input, reject an empty string, normalize, validate; the Boolean is `true`
exactly when control reaches the network call of line 243, and the list holds
the error lines printed on the rejecting paths. -/
def refresh_single_url_pre (input : String) : List String × Bool :=
  let t := py_strip input
  if t == "" then (["   ❌ 网址不能为空"], false)
  else
    let url := format_url t
    if validate_url url then ([], true)
    else (["   ❌ 网址格式无效: " ++ url], false)

/-- The post-refresh branch of `refresh_single_url` (lines 245–256): the
success display, the cookie-details prompt and the save prompt are all inside
the `result and result.get('status') == 'success'` branch.  The triple
records whether each of the three is reached. -/
def single_after (res : Option ServerBody) : Bool × Bool × Bool :=
  match res with
  | some r => if r.status == some "success" then (true, true, true) else (false, false, false)
  | none => (false, false, false)

/-- One record of the `results` list of `batch_refresh` (lines 328–341).  A
failed record carries only `url` and `status` in Python; the absent keys are
modelled as `none`. -/
structure BatchRecord where
  url : String
  hostname : Option String
  cookies_count : Option Int
  time_ms : Option Int
  status : String
deriving DecidableEq

/-- The record `batch_refresh` appends for one URL (lines 328–341), from the
return value of `refresh_cookies` for that URL. -/
def mk_batch_record (u : String) (res : Option ServerBody) : BatchRecord :=
  match res with
  | some r =>
      if r.status == some "success" then
        { url := u, hostname := r.hostname, cookies_count := r.cookies_count,
          time_ms := r.generation_time_ms, status := "success" }
      else { url := u, hostname := none, cookies_count := none, time_ms := none,
             status := "failed" }
  | none => { url := u, hostname := none, cookies_count := none, time_ms := none,
              status := "failed" }

/-- Observable events of the `batch_refresh` loop: one refresh-client
invocation, or one `asyncio.sleep` of the given number of seconds. -/
inductive BEvent where
  | call (url : String)
  | sleep (secs : Nat)
deriving DecidableEq

/-- Whether a batch event is a pause. -/
def BEvent.isSleep : BEvent → Bool
  | BEvent.sleep _ => true
  | _ => false

/-- The URL of a call event. -/
def BEvent.callUrl : BEvent → Option String
  | BEvent.call u => some u
  | _ => none

/-- The loop of `batch_refresh` (lines 324–346) over the already-validated
URL list: for the `i`-th URL invoke the refresh client (its result given by
`oracle i`), append a record, and sleep 2 seconds unless this was the last
URL (`if i < len(urls): await asyncio.sleep(2)`).  Returns the event trace
and the accumulated `results` list. -/
def batch_trace (oracle : Nat → Option ServerBody) :
    Nat → List String → List BEvent × List BatchRecord
  | _, [] => ([], [])
  | i, [u] => ([BEvent.call u], [mk_batch_record u (oracle i)])
  | i, u :: v :: rest =>
      let p := batch_trace oracle (i + 1) (v :: rest)
      (BEvent.call u :: BEvent.sleep 2 :: p.1, mk_batch_record u (oracle i) :: p.2)

/-- The JSON document written by `save_result_to_file` (lines 373–391). -/
structure SavedSingle where
  timestamp : String
  url : String
  hostname : Option String
  cookies_count : Option Int
  user_agent : Option String
  generation_time_ms : Option Int
deriving DecidableEq

/-- `save_result_to_file` (lines 373–391): the output filename and the
document written (`json.dump` of the `data` dict). -/
def save_result_to_file (now : PyDateTime) (url : String) (r : ServerBody) :
    String × SavedSingle :=
  ("cookie_refresh_" ++ strftime_ymd_hms now ++ ".json",
   { timestamp := isoformat now, url := url, hostname := r.hostname,
     cookies_count := r.cookies_count, user_agent := r.user_agent,
     generation_time_ms := r.generation_time_ms })

/-- The JSON document written by `save_batch_results` (lines 394–411). -/
structure SavedBatch where
  timestamp : String
  total : Nat
  success : Nat
  failed : Nat
  results : List BatchRecord
deriving DecidableEq

/-- `save_batch_results` (lines 394–411): the output filename and the
aggregated document. -/
def save_batch_results (now : PyDateTime) (rs : List BatchRecord) :
    String × SavedBatch :=
  ("cookie_refresh_batch_" ++ strftime_ymd_hms now ++ ".json",
   { timestamp := isoformat now, total := rs.length,
     success := rs.countP (fun r => r.status == "success"),
     failed := rs.countP (fun r => r.status == "failed"),
     results := rs })

end Interactive

/-! ## `quick_refresh.py` — the simplified single-loop tool -/

namespace Quick

/-- The success-branch display of `refresh_and_display` (lines 36–46): the
lines printed and, when the f-string of line 41 divides a missing
`generation_time_ms` (Python `None / 1000`), the `TypeError` it raises after
the earlier lines were already printed.  `hostname` and `cookies_count` are
read with bare `dict.get`, so a missing value renders as `None`; the
User-Agent line is guarded by truthiness and always truncates to 60
characters plus an ellipsis. -/
def success_display (r : ServerBody) : List String × Option PyErr :=
  let base := ["✅ 刷新成功！\n",
               py_repeat "━" 50,
               "主机名: " ++ py_show_opt_str r.hostname,
               "Cookie 数: " ++ py_show_opt_int r.cookies_count ++ " 个"]
  match r.generation_time_ms with
  | none => (base, some PyErr.typeError)
  | some n =>
      let withTime := base
        ++ ["耗时: " ++ toString n ++ "ms (" ++ fmt_div1000 n ++ "秒)",
            py_repeat "━" 50]
      match r.user_agent with
      | some ua =>
          if ua == "" then (withTime, none)
          else (withTime ++ ["\nUser-Agent: " ++ py_take ua 60 ++ "..."], none)
      | none => (withTime, none)

/-- `json.dump(result, f)` of lines 51–53: filename (embedding the target
hostname) and the document, which is the response body verbatim. -/
def save_file (url : String) (r : ServerBody) : String × ServerBody :=
  ("cookie_" ++ netloc_of url ++ ".json", r)

/-- `refresh_and_display` (lines 15–70): progress lines, then dispatch on the
request outcome; `saveAnswer` is the user's answer to the save prompt on the
success path.  The Boolean is the Python return value (`True`/`False`); a
`TypeError` escaping the success display is caught by the generic
`except Exception` handler of line 68, which prints it and returns `False`. -/
def refresh_and_display (url : String) (proxy : Option String)
    (o : NetOutcome) (saveAnswer : Bool) : List String × Bool :=
  let pre := ["\n⏳ 正在刷新 " ++ url ++ "..."]
      ++ (match proxy with
          | some p => ["   代理: " ++ p]
          | none => [])
      ++ ["   请稍候...\n"]
  match o with
  | NetOutcome.resp st body =>
      if st == 200 then
        match success_display body with
        | (lines, some e) => (pre ++ lines ++ ["❌ 错误: " ++ py_err_str e], false)
        | (lines, none) =>
            if saveAnswer then
              (pre ++ lines
                 ++ ["✅ 已保存到 " ++ (save_file url body).1], true)
            else (pre ++ lines, true)
      else (pre ++ ["❌ 错误: " ++ body.detail.getD "未知错误"], false)
  | NetOutcome.timeout _ =>
      (pre ++ ["❌ 超时 - 刷新耗时过长"], false)
  | NetOutcome.connector _ =>
      (pre ++ ["❌ 无法连接到服务器 (http://localhost:8000)",
               "   请确保服务器已启动: python server.py"], false)
  | NetOutcome.otherExc t =>
      (pre ++ ["❌ 错误: " ++ t], false)

/-- The URL-handling prefix of the `main` loop (lines 81–100): strip, check
the quit words, reject an empty string, normalize exactly as
`interactive_refresh.py` does (lines 92–93 are a copy of `format_url`), then
"validate" by calling `urlparse` inside try/except — only a parse exception
rejects.  The Boolean is `true` exactly when control reaches the
`refresh_and_display` call of line 115 (taking the no-proxy answer at the
proxy prompt), i.e. when a network request is issued. -/
def main_loop_pre (input : String) : List String × Bool :=
  let t := py_strip input
  if py_lower t == "quit" || py_lower t == "exit" || py_lower t == "q" then ([], false)
  else if t == "" then (["❌ 网址不能为空\n"], false)
  else
    let url := if !(py_startswith t "http://" || py_startswith t "https://") then
                 "https://" ++ t
               else t
    match urlsplit url with
    | Except.ok _ => ([], true)
    | Except.error _ => (["❌ URL 格式无效\n"], false)

end Quick

/-! ## `refresh_example.py` — the scripted demo runner -/

namespace ExampleScript

/-- `CacheFreshener.refresh_cookies` (lines 20–53): no pre-request printing
inside the method, HTTP 200 returns the body, a non-200 prints the `detail`
error lines, and every exception — timeout and connection failure included —
falls into the single generic `except Exception` handler of lines 51–53,
whose message appends `str(e)`. -/
def refresh_cookies (o : NetOutcome) : List String × Option ServerBody :=
  match o with
  | NetOutcome.resp st body =>
      if st == 200 then ([], some body)
      else
        (["❌ 刷新失败 (状态码: " ++ toString st ++ ")",
          "   错误: " ++ body.detail.getD "未知错误"], none)
  | NetOutcome.timeout t => (["❌ 请求失败: " ++ t], none)
  | NetOutcome.connector t => (["❌ 请求失败: " ++ t], none)
  | NetOutcome.otherExc t => (["❌ 请求失败: " ++ t], none)

/-- The `result and result["status"] == "success"` test of
`demo_basic_refresh` (line 113): `None` short-circuits to `False`, a body
without a `status` key raises `KeyError`, otherwise the string is compared
to `"success"`. -/
def demo_shows (res : Option ServerBody) : Except PyErr Bool :=
  match res with
  | none => Except.ok false
  | some r =>
      match r.status with
      | none => Except.error PyErr.keyError
      | some s => Except.ok (s == "success")

end ExampleScript

/-! ## Concrete sample values used by witnesses and counterexamples -/

/-- A successful refresh body matching the mocked response of spec §8. -/
def sampleSuccessBody : ServerBody :=
  { status := some "success", hostname := some "example.com",
    cookies_count := some 5, user_agent := some "UA",
    generation_time_ms := some 1500, detail := none }

/-- A 200 body whose `status` is present but not `"success"`. -/
def sampleErrorStatusBody : ServerBody :=
  { status := some "error", hostname := none, cookies_count := none,
    user_agent := none, generation_time_ms := none, detail := none }

/-- A non-200 error body carrying `detail` (spec §8 rate-limit example). -/
def rateLimitedBody : ServerBody :=
  { status := none, hostname := none, cookies_count := none,
    user_agent := none, generation_time_ms := none,
    detail := some "rate limited" }

/-- A 200 success body whose optional `generation_time_ms` key is absent. -/
def noTimeBody : ServerBody :=
  { status := some "success", hostname := some "example.com",
    cookies_count := some 5, user_agent := none,
    generation_time_ms := none, detail := none }

/-- A body with every optional field absent. -/
def emptyBody : ServerBody := {}

/-- A refresh oracle for a two-URL batch: the first call succeeds, the second
fails (the client returned `None`). -/
def twoUrlOracle : Nat → Option ServerBody :=
  fun n => if n == 0 then some sampleSuccessBody else none

/-- A fixed `datetime.now()` value for evaluating the persistence helpers. -/
def sampleNow : PyDateTime :=
  { year := 2026, month := 10, day := 12, hour := 3, minute := 21,
    second := 7, microsecond := 0 }

/-- A 41-character cookie value (one character above the truncation bound). -/
def longValue : String := py_repeat "a" 41

/-- A cookie set with one Cloudflare cookie and seven other cookies, so the
other section overflows the 5-entry cap by 2. -/
def sampleCookies : List (String × String) :=
  [("cf_clearance", longValue), ("session", "xyz"), ("a", "1"), ("b", "2"),
   ("c", "3"), ("d", "4"), ("e", "5"), ("f", "6")]

/-! ## Helper lemmas -/

/-- A string with `https://` prepended is strictly longer than the original,
hence different from it. -/
theorem https_prepend_ne (s : String) : "https://" ++ s ≠ s := by
  intro heq
  have hlen : ("https://" ++ s).data.length = s.data.length := by rw [heq]
  rw [String.data_append, List.length_append] at hlen
  have h8 : ("https://" : String).data.length = 8 := rfl
  omega

/-- The event trace of the batch loop is the call list with a 2-second sleep
between each pair of consecutive calls and none after the last. -/
theorem batch_trace_events (o : Nat → Option ServerBody) (urls : List String) :
    ∀ i : Nat,
      (Interactive.batch_trace o i urls).1
        = List.intersperse (Interactive.BEvent.sleep 2)
            (urls.map Interactive.BEvent.call) := by
  induction urls with
  | nil => intro i; rfl
  | cons u rest ih =>
      intro i
      cases rest with
      | nil => rfl
      | cons v t =>
          have h := ih (i + 1)
          simp only [Interactive.batch_trace, List.map_cons, List.intersperse] at *
          exact congrArg (fun l => Interactive.BEvent.call u :: Interactive.BEvent.sleep 2 :: l) h

/-- The batch loop issues exactly the input URLs as calls, in input order. -/
theorem batch_trace_calls (o : Nat → Option ServerBody) (urls : List String) :
    ∀ i : Nat,
      ((Interactive.batch_trace o i urls).1.filterMap Interactive.BEvent.callUrl) = urls := by
  induction urls with
  | nil => intro i; rfl
  | cons u rest ih =>
      intro i
      cases rest with
      | nil => rfl
      | cons v t =>
          have h := ih (i + 1)
          simp only [Interactive.batch_trace, List.filterMap_cons] at *
          simp [Interactive.BEvent.callUrl, h]

/-- The batch loop pauses exactly `n - 1` times for `n` URLs. -/
theorem batch_trace_sleeps (o : Nat → Option ServerBody) (urls : List String) :
    ∀ i : Nat,
      ((Interactive.batch_trace o i urls).1.countP Interactive.BEvent.isSleep)
        = urls.length - 1 := by
  induction urls with
  | nil => intro i; rfl
  | cons u rest ih =>
      intro i
      cases rest with
      | nil => rfl
      | cons v t =>
          have h := ih (i + 1)
          simp only [Interactive.batch_trace, List.countP_cons] at *
          simp [Interactive.BEvent.isSleep, h]

/-- Every record the batch loop appends has status `success` or `failed`. -/
theorem mk_batch_record_status (u : String) (res : Option ServerBody) :
    (Interactive.mk_batch_record u res).status = "success"
      ∨ (Interactive.mk_batch_record u res).status = "failed" := by
  cases res with
  | none => right; rfl
  | some r =>
      by_cases h : (r.status == some "success") = true
      · left; simp [Interactive.mk_batch_record, h]
      · right; simp [Interactive.mk_batch_record, h]

/-- On a record list whose statuses are all `success` or `failed`, the two
`countP` reductions of `save_batch_results` partition the list. -/
theorem countP_status_partition (rs : List Interactive.BatchRecord)
    (h : ∀ r ∈ rs, r.status = "success" ∨ r.status = "failed") :
    rs.countP (fun r => r.status == "success")
      + rs.countP (fun r => r.status == "failed") = rs.length := by
  induction rs with
  | nil => rfl
  | cons r rest ih =>
      have hr := h r (List.mem_cons_self r rest)
      have hrest := ih (fun x hx => h x (List.mem_cons_of_mem r hx))
      rcases hr with hs | hf
      · simp [List.countP_cons, hs]
        omega
      · simp [List.countP_cons, hf]
        omega

/-- Every record produced by the batch loop has status `success` or
`failed`. -/
theorem batch_trace_record_status (o : Nat → Option ServerBody) (urls : List String) :
    ∀ i : Nat, ∀ r ∈ (Interactive.batch_trace o i urls).2,
      r.status = "success" ∨ r.status = "failed" := by
  induction urls with
  | nil => intro i r hr; simp [Interactive.batch_trace] at hr
  | cons u rest ih =>
      intro i r hr
      cases rest with
      | nil =>
          simp only [Interactive.batch_trace, List.mem_singleton] at hr
          subst hr
          exact mk_batch_record_status u (o i)
      | cons v t =>
          simp only [Interactive.batch_trace, List.mem_cons] at hr
          rcases hr with hr | hr
          · subst hr; exact mk_batch_record_status u (o i)
          · exact ih (i + 1) r hr

/-! ## Claim theorems -/

/-- C1: For every batch of URLs, the `batch_refresh` loop (the spec §4.5
batch orchestrator) invokes the refresh client exactly once per URL,
sequentially and in input order, with a single fixed 2-second pause between
every pair of consecutive calls and no pause after the final call — the
event trace is exactly the call list interspersed with 2-second sleeps, so
there are `n - 1` pauses in total. -/
theorem batch_refresh_calls_and_pauses (oracle : Nat → Option ServerBody)
    (i : Nat) (urls : List String) :
    (Interactive.batch_trace oracle i urls).1
        = List.intersperse (Interactive.BEvent.sleep 2)
            (urls.map Interactive.BEvent.call)
  ∧ ((Interactive.batch_trace oracle i urls).1.filterMap Interactive.BEvent.callUrl)
      = urls
  ∧ ((Interactive.batch_trace oracle i urls).1.countP Interactive.BEvent.isSleep)
      = urls.length - 1 :=
  ⟨batch_trace_events oracle urls i, batch_trace_calls oracle urls i,
   batch_trace_sleeps oracle urls i⟩

/-- C2: `format_url` returns strings already starting with `http://` or
`https://` unchanged, and prepends `https://` exactly once (so the result is
a strictly different, longer string) to every other input. -/
theorem format_url_prepends_iff (s : String) :
    ((py_startswith s "http://" || py_startswith s "https://") = true →
        Interactive.format_url s = s)
  ∧ ((py_startswith s "http://" || py_startswith s "https://") = false →
        Interactive.format_url s = "https://" ++ s ∧ Interactive.format_url s ≠ s) := by
  constructor
  · intro h
    simp [Interactive.format_url, h]
  · intro h
    have he : Interactive.format_url s = "https://" ++ s := by
      simp [Interactive.format_url, h]
    exact ⟨he, he ▸ https_prepend_ne s⟩

/-- Witness for C2 at the concrete inputs `example.com` (no scheme — the
prefix is prepended) and `http://x` (scheme present — unchanged). -/
theorem format_url_prepends_iff_witness :
    (py_startswith "example.com" "http://" || py_startswith "example.com" "https://") = false
  ∧ Interactive.format_url "example.com" = "https://" ++ "example.com"
  ∧ Interactive.format_url "example.com" ≠ "example.com"
  ∧ (py_startswith "http://x" "http://" || py_startswith "http://x" "https://") = true
  ∧ Interactive.format_url "http://x" = "http://x" :=
  ⟨by decide, ((format_url_prepends_iff "example.com").2 (by decide)).1,
   ((format_url_prepends_iff "example.com").2 (by decide)).2, by decide,
   (format_url_prepends_iff "http://x").1 (by decide)⟩

/-- C3 (amended): In the full interactive tool, every user input whose
normalized URL lacks a netloc (empty netloc or parse error) is rejected by
`validate_url`, the action aborts printing the invalid-URL message (when the
input was non-empty), and control never reaches the network call.  (The
simplified script does not share this guarantee — see the counterexample.) -/
theorem netloc_missing_rejected (input : String)
    (h : netlocMissing (Interactive.format_url (py_strip input)) = true) :
    (Interactive.refresh_single_url_pre input).2 = false
  ∧ (py_strip input ≠ "" →
       ("   ❌ 网址格式无效: " ++ Interactive.format_url (py_strip input))
         ∈ (Interactive.refresh_single_url_pre input).1) := by
  have hv : Interactive.validate_url (Interactive.format_url (py_strip input)) = false := by
    unfold Interactive.validate_url
    unfold netlocMissing at h
    rcases hu : urlsplit (Interactive.format_url (py_strip input)) with e | p
    · rfl
    · rw [hu] at h
      have hn : p.netloc = "" := by simpa using h
      simp [hn]
  by_cases ht : py_strip input = ""
  · constructor
    · simp [Interactive.refresh_single_url_pre, ht]
    · intro hne; exact absurd ht hne
  · have htb : (py_strip input == "") = false := by simpa using ht
    constructor
    · simp [Interactive.refresh_single_url_pre, htb, hv]
    · intro _
      simp [Interactive.refresh_single_url_pre, htb, hv]

/-- Witness for C3 at the concrete input `https://`: normalization leaves it
unchanged, the parsed netloc is empty, and the full tool rejects it with the
invalid-URL message before any network call. -/
theorem netloc_missing_rejected_witness :
    netlocMissing (Interactive.format_url (py_strip "https://")) = true
  ∧ (Interactive.refresh_single_url_pre "https://").2 = false
  ∧ ("   ❌ 网址格式无效: " ++ Interactive.format_url (py_strip "https://"))
      ∈ (Interactive.refresh_single_url_pre "https://").1 :=
  ⟨by decide, (netloc_missing_rejected "https://" (by decide)).1,
   (netloc_missing_rejected "https://" (by decide)).2 (by decide)⟩

/-- C3 (counterexample): the claim fails on the simplified script.  For the
user input `https://` — unchanged by normalization and with an empty netloc —
the `urlparse`-in-try/except "validation" of `quick_refresh.py` (lines
96–100) does not reject, and the main loop proceeds to issue the network
request (`main_loop_pre` returning `true` means control reaches the
`refresh_and_display` call, which performs the POST). -/
theorem quick_issues_request_without_netloc :
    netlocMissing "https://" = true
  ∧ (Quick.main_loop_pre "https://").2 = true := by decide

/-- C4: On every non-200 response, both refresh clients print a user-visible
message containing the JSON body's `detail` text (the printed line has the
detail as a suffix) — or the generic fallback `未知错误` when `detail` is
absent — and return the failure indicator (`None` in the full tool, `False`
in the simplified script) instead of letting an exception escape: every
branch of the embedded handlers returns normally. -/
theorem non200_reports_detail (server_url url : String) (proxy : Option String)
    (st : Nat) (body : ServerBody) (saveAnswer : Bool) (hst : st ≠ 200) :
    (Interactive.refresh_cookies server_url url proxy (NetOutcome.resp st body)).2 = none
  ∧ (Quick.refresh_and_display url proxy (NetOutcome.resp st body) saveAnswer).2 = false
  ∧ (∀ d, body.detail = some d →
        (∃ m ∈ (Interactive.refresh_cookies server_url url proxy (NetOutcome.resp st body)).1,
            d.data <:+ m.data)
      ∧ (∃ m ∈ (Quick.refresh_and_display url proxy (NetOutcome.resp st body) saveAnswer).1,
            d.data <:+ m.data))
  ∧ (body.detail = none →
        "   未知错误" ∈ (Interactive.refresh_cookies server_url url proxy (NetOutcome.resp st body)).1
      ∧ "❌ 错误: 未知错误" ∈ (Quick.refresh_and_display url proxy (NetOutcome.resp st body) saveAnswer).1) := by
  have hb : (st == 200) = false := by simpa using hst
  refine ⟨?_, ?_, ?_, ?_⟩
  · simp [Interactive.refresh_cookies, hb]
  · simp [Quick.refresh_and_display, hb]
  · intro d hd
    constructor
    · refine ⟨"   " ++ d, ?_, ?_⟩
      · simp [Interactive.refresh_cookies, hb, hd]
      · rw [String.data_append]; exact List.suffix_append _ _
    · refine ⟨"❌ 错误: " ++ d, ?_, ?_⟩
      · simp [Quick.refresh_and_display, hb, hd]
      · rw [String.data_append]; exact List.suffix_append _ _
  · intro hd
    constructor
    · simp [Interactive.refresh_cookies, hb, hd]
    · simp [Quick.refresh_and_display, hb, hd]

/-- Witness for C4: a 429 response with body `detail = "rate limited"` makes
both clients print a message carrying `rate limited` and return the failure
indicator. -/
theorem non200_reports_detail_witness :
    (429 ≠ 200)
  ∧ (∃ m ∈ (Interactive.refresh_cookies "http://localhost:8000" "https://example.com"
              none (NetOutcome.resp 429 rateLimitedBody)).1,
        ("rate limited" : String).data <:+ m.data)
  ∧ (∃ m ∈ (Quick.refresh_and_display "https://example.com" none
              (NetOutcome.resp 429 rateLimitedBody) false).1,
        ("rate limited" : String).data <:+ m.data)
  ∧ (Interactive.refresh_cookies "http://localhost:8000" "https://example.com"
        none (NetOutcome.resp 429 rateLimitedBody)).2 = none
  ∧ (Quick.refresh_and_display "https://example.com" none
        (NetOutcome.resp 429 rateLimitedBody) false).2 = false := by
  have h := non200_reports_detail "http://localhost:8000" "https://example.com" none
    429 rateLimitedBody false (by decide)
  have hd := h.2.2.1 "rate limited" rfl
  exact ⟨by decide, hd.1, hd.2, h.1, h.2.1⟩

/-- C9 (amended): In the full interactive tool and in the simplified script a
timeout and a connection failure are caught by separate handlers printing
fixed, always-distinct messages (whatever the exception texts are), and both
return the failure indicator.  In the example script both causes fall into
one generic `except Exception` handler, whose single message varies only
with `str(e)` — so the two causes are not separately distinguished there
(see the counterexample); no cause escapes as an unhandled exception in any
of the three scripts. -/
theorem error_cause_messages (server_url url : String) (proxy : Option String)
    (t1 t2 : String) (saveAnswer : Bool) :
    (Interactive.refresh_cookies server_url url proxy (NetOutcome.timeout t1)).1
        ≠ (Interactive.refresh_cookies server_url url proxy (NetOutcome.connector t2)).1
  ∧ (Interactive.refresh_cookies server_url url proxy (NetOutcome.timeout t1)).2 = none
  ∧ (Interactive.refresh_cookies server_url url proxy (NetOutcome.connector t2)).2 = none
  ∧ (Quick.refresh_and_display url proxy (NetOutcome.timeout t1) saveAnswer).1
        ≠ (Quick.refresh_and_display url proxy (NetOutcome.connector t2) saveAnswer).1
  ∧ (Quick.refresh_and_display url proxy (NetOutcome.timeout t1) saveAnswer).2 = false
  ∧ (Quick.refresh_and_display url proxy (NetOutcome.connector t2) saveAnswer).2 = false
  ∧ ExampleScript.refresh_cookies (NetOutcome.timeout t1) = (["❌ 请求失败: " ++ t1], none)
  ∧ ExampleScript.refresh_cookies (NetOutcome.connector t2) = (["❌ 请求失败: " ++ t2], none) := by
  refine ⟨?_, by simp [Interactive.refresh_cookies], by simp [Interactive.refresh_cookies],
          ?_, by simp [Quick.refresh_and_display], by simp [Quick.refresh_and_display],
          rfl, rfl⟩
  · intro heq
    have hlen := congrArg List.length heq
    simp [Interactive.refresh_cookies, List.length_append] at hlen
  · intro heq
    have hlen := congrArg List.length heq
    simp [Quick.refresh_and_display, List.length_append] at hlen

/-- C9 (counterexample): the claim as stated fails on the example script.
`CacheFreshener.refresh_cookies` routes a timeout and a connection failure
through the same generic handler, so with equal exception texts (here the
empty string — exactly what `str(asyncio.TimeoutError())` renders to) the
two causes produce identical output: the same single message and the same
return value, not a distinct "server unreachable" message. -/
theorem example_script_same_error_message :
    ExampleScript.refresh_cookies (NetOutcome.timeout "")
      = ExampleScript.refresh_cookies (NetOutcome.connector "") := rfl

/-- C10: Whenever a 200 response body carries a `status` field different from
`"success"`, every cited caller treats the refresh as failed:
`refresh_single_url` shows no success display and offers neither the
cookie-details prompt nor the save prompt, `batch_refresh` appends a record
with status `"failed"`, and `demo_basic_refresh` takes its failure branch. -/
theorem status_not_success_is_failure (r : ServerBody) (s u : String)
    (hs : r.status = some s) (hne : s ≠ "success") :
    Interactive.single_after (some r) = (false, false, false)
  ∧ (Interactive.mk_batch_record u (some r)).status = "failed"
  ∧ ExampleScript.demo_shows (some r) = Except.ok false := by
  have hb : (r.status == some "success") = false := by
    simp [hs, hne]
  refine ⟨?_, ?_, ?_⟩
  · simp [Interactive.single_after, hb]
  · simp [Interactive.mk_batch_record, hb]
  · simp [ExampleScript.demo_shows, hs, hne]

/-- Witness for C10 at a concrete 200 body with `status = "error"`. -/
theorem status_not_success_is_failure_witness :
    sampleErrorStatusBody.status = some "error"
  ∧ ("error" : String) ≠ "success"
  ∧ Interactive.single_after (some sampleErrorStatusBody) = (false, false, false)
  ∧ (Interactive.mk_batch_record "https://example.com" (some sampleErrorStatusBody)).status
      = "failed"
  ∧ ExampleScript.demo_shows (some sampleErrorStatusBody) = Except.ok false := by
  have h := status_not_success_is_failure sampleErrorStatusBody "error"
    "https://example.com" rfl (by decide)
  exact ⟨rfl, by decide, h.1, h.2.1, h.2.2⟩

/-- C5: In `display_cookies`, a cookie lands in the Cloudflare dict exactly
when its name starts with `cf_` or `__cf` and in the other dict exactly
otherwise; every displayed value longer than 40 characters is truncated to
its first 40 characters plus an ellipsis (shorter values are unchanged); the
rendered other section shows at most 5 entries, with the remainder-count line
present exactly when more than 5 other cookies exist. -/
theorem display_cookies_grouping (cs : List (String × String)) (name value v : String) :
    ((name, value) ∈ Interactive.cf_cookies cs ↔
        (name, value) ∈ cs ∧ Interactive.is_cf_name name = true)
  ∧ ((name, value) ∈ Interactive.other_cookies cs ↔
        (name, value) ∈ cs ∧ Interactive.is_cf_name name = false)
  ∧ (py_len v > 40 → Interactive.value_preview v = py_take v 40 ++ "...")
  ∧ (py_len v ≤ 40 → Interactive.value_preview v = v)
  ∧ (Interactive.display_cookies_sections cs).cfLines
      = (Interactive.cf_cookies cs).map Interactive.cookie_line
  ∧ (Interactive.display_cookies_sections cs).otherLines
      = ((Interactive.other_cookies cs).take 5).map Interactive.cookie_line
  ∧ (Interactive.display_cookies_sections cs).otherLines.length ≤ 5
  ∧ ((Interactive.other_cookies cs).length > 5 →
        (Interactive.display_cookies_sections cs).restLine
          = some ("   ... 还有 "
              ++ toString ((Interactive.other_cookies cs).length - 5) ++ " 个"))
  ∧ ((Interactive.other_cookies cs).length ≤ 5 →
        (Interactive.display_cookies_sections cs).restLine = none) := by
  refine ⟨?_, ?_, ?_, ?_, rfl, rfl, ?_, ?_, ?_⟩
  · simp [Interactive.cf_cookies, List.mem_filter]
  · simp [Interactive.other_cookies, List.mem_filter]
  · intro h
    simp [Interactive.value_preview, h]
  · intro h
    have : ¬ py_len v > 40 := by omega
    simp [Interactive.value_preview, this]
  · simp only [Interactive.display_cookies_sections, List.length_map, List.length_take]
    omega
  · intro h
    simp [Interactive.display_cookies_sections, h]
  · intro h
    have : ¬ (Interactive.other_cookies cs).length > 5 := by omega
    simp [Interactive.display_cookies_sections, this]

/-- Witness for C5 on a concrete cookie set: `cf_clearance` (with a
41-character value) goes to the Cloudflare dict and is truncated with an
ellipsis, `session` goes to the other dict and its 3-character value is
unchanged, and the 7-element other section shows only 5 entries plus a
remainder line counting 2. -/
theorem display_cookies_grouping_witness :
    ("cf_clearance", longValue) ∈ Interactive.cf_cookies sampleCookies
  ∧ ("session", "xyz") ∈ Interactive.other_cookies sampleCookies
  ∧ py_len longValue > 40
  ∧ Interactive.value_preview longValue = py_take longValue 40 ++ "..."
  ∧ Interactive.value_preview "xyz" = "xyz"
  ∧ (Interactive.other_cookies sampleCookies).length > 5
  ∧ (Interactive.display_cookies_sections sampleCookies).otherLines.length ≤ 5
  ∧ (Interactive.display_cookies_sections sampleCookies).restLine
      = some ("   ... 还有 "
          ++ toString ((Interactive.other_cookies sampleCookies).length - 5) ++ " 个") := by
  obtain ⟨h1, h2, h3, h4, -, -, h7, h8, -⟩ :=
    display_cookies_grouping sampleCookies "cf_clearance" longValue longValue
  obtain ⟨-, h2b, -, h4b, -, -, -, -, -⟩ :=
    display_cookies_grouping sampleCookies "session" "xyz" "xyz"
  exact ⟨h1.mpr ⟨by decide, by decide⟩, h2b.mpr ⟨by decide, by decide⟩, by decide,
         h3 (by decide), h4b (by decide), by decide, h7, h8 (by decide)⟩

/-- C6 (amended): The full tool's `display_result` reads every field with a
default, so it renders every input body — substituting `N/A` for a missing
hostname, `0` for missing counts and times, and skipping the User-Agent
block — and, being a pure function of the body, mutates nothing.  The
simplified script's inline success display tolerates missing `hostname` and
`cookies_count` (they render as `None`) but raises a `TypeError` — caught by
its enclosing handler — exactly when `generation_time_ms` is missing, rather
than substituting a placeholder. -/
theorem display_result_missing_fields (r : ServerBody) :
    (r.hostname = none → "   主机名: N/A" ∈ Interactive.display_result r)
  ∧ (r.cookies_count = none → "   总数: 0 个" ∈ Interactive.display_result r)
  ∧ (r.generation_time_ms = none →
        "   生成耗时: 0 ms (0.0 秒)" ∈ Interactive.display_result r)
  ∧ ((Quick.success_display r).2 = none ↔ r.generation_time_ms ≠ none) := by
  refine ⟨?_, ?_, ?_, ?_⟩
  · intro h
    simp [Interactive.display_result, h]
  · intro h
    simp [Interactive.display_result, h]
    right; right; right; left
    decide
  · intro h
    simp [Interactive.display_result, h]
    right; right; right; right; right; left
    decide
  · constructor
    · intro h hnone
      rw [show (Quick.success_display r).2
            = some PyErr.typeError from by simp [Quick.success_display, hnone]] at h
      exact Option.some_ne_none _ h
    · intro h
      rcases hg : r.generation_time_ms with _ | n
      · exact absurd hg h
      · rcases hu : r.user_agent with _ | ua
        · simp [Quick.success_display, hg, hu]
        · by_cases he : ua == ""
          · simp [Quick.success_display, hg, hu, he]
          · simp [Quick.success_display, hg, hu, he]

/-- Witness for C6 on the body with every optional field absent: the full
tool renders all three placeholder lines, while on a present
`generation_time_ms` the simplified display raises nothing. -/
theorem display_result_missing_fields_witness :
    "   主机名: N/A" ∈ Interactive.display_result emptyBody
  ∧ "   总数: 0 个" ∈ Interactive.display_result emptyBody
  ∧ "   生成耗时: 0 ms (0.0 秒)" ∈ Interactive.display_result emptyBody
  ∧ (Quick.success_display sampleSuccessBody).2 = none := by
  have h := display_result_missing_fields emptyBody
  have h2 := display_result_missing_fields sampleSuccessBody
  exact ⟨h.1 rfl, h.2.1 rfl, h.2.2.1 rfl, h2.2.2.2.mpr (by decide)⟩

/-- C6 (counterexample): the claim as stated fails on the simplified script.
On a 200 success body lacking only the optional `generation_time_ms` key,
the inline display of `quick_refresh.py` line 41 evaluates `None / 1000` and
raises a `TypeError` instead of substituting a placeholder; the enclosing
generic handler then reports it and `refresh_and_display` returns `False`
for a response that was a 200 success. -/
theorem quick_display_raises_on_missing_time :
    (Quick.success_display noTimeBody).2 = some PyErr.typeError
  ∧ (Quick.refresh_and_display "https://example.com" none
        (NetOutcome.resp 200 noTimeBody) false).2 = false := by decide

/-- C7: For every record list produced by the `batch_refresh` loop, the
document written by `save_batch_results` has `total` equal to the number of
records, `success` equal to the number of `"success"` records, `failed`
equal to the number of `"failed"` records, and `success + failed = total`;
in particular the concrete two-URL batch with one success and one failure
yields `success = 1` and `failed = 1`. -/
theorem save_batch_results_counts (oracle : Nat → Option ServerBody)
    (i : Nat) (urls : List String) (now : PyDateTime) :
    ((Interactive.save_batch_results now (Interactive.batch_trace oracle i urls).2).2.total
        = (Interactive.batch_trace oracle i urls).2.length)
  ∧ ((Interactive.save_batch_results now (Interactive.batch_trace oracle i urls).2).2.success
        = (Interactive.batch_trace oracle i urls).2.countP (fun r => r.status == "success"))
  ∧ ((Interactive.save_batch_results now (Interactive.batch_trace oracle i urls).2).2.failed
        = (Interactive.batch_trace oracle i urls).2.countP (fun r => r.status == "failed"))
  ∧ ((Interactive.save_batch_results now (Interactive.batch_trace oracle i urls).2).2.success
        + (Interactive.save_batch_results now (Interactive.batch_trace oracle i urls).2).2.failed
        = (Interactive.save_batch_results now (Interactive.batch_trace oracle i urls).2).2.total)
  ∧ ((Interactive.save_batch_results sampleNow
        (Interactive.batch_trace twoUrlOracle 0 ["https://a.com", "https://b.com"]).2).2.success
        = 1)
  ∧ ((Interactive.save_batch_results sampleNow
        (Interactive.batch_trace twoUrlOracle 0 ["https://a.com", "https://b.com"]).2).2.failed
        = 1) :=
  ⟨rfl, rfl, rfl,
   countP_status_partition (Interactive.batch_trace oracle i urls).2
     (batch_trace_record_status oracle urls i),
   by decide, by decide⟩

/-- C8 (amended): `save_result_to_file` (full tool) writes a document whose
data fields `hostname`, `cookies_count`, `user_agent`, `generation_time_ms`
— a subset of the RefreshResult contract fields — are copied from the
result, plus the URL and an ISO-8601 timestamp, to a filename embedding the
compact current timestamp; the simplified script writes the response body
verbatim (no added timestamp — see the counterexample) to a filename
embedding the target hostname. -/
theorem save_result_document_shape (now : PyDateTime) (url : String) (r : ServerBody) :
    (Interactive.save_result_to_file now url r).1
        = "cookie_refresh_" ++ strftime_ymd_hms now ++ ".json"
  ∧ (strftime_ymd_hms now).data <:+: (Interactive.save_result_to_file now url r).1.data
  ∧ (Interactive.save_result_to_file now url r).2.timestamp = isoformat now
  ∧ (Interactive.save_result_to_file now url r).2.url = url
  ∧ (Interactive.save_result_to_file now url r).2.hostname = r.hostname
  ∧ (Interactive.save_result_to_file now url r).2.cookies_count = r.cookies_count
  ∧ (Interactive.save_result_to_file now url r).2.user_agent = r.user_agent
  ∧ (Interactive.save_result_to_file now url r).2.generation_time_ms = r.generation_time_ms
  ∧ (["hostname", "cookies_count", "user_agent", "generation_time_ms"] : List String)
      ⊆ refreshResultFields
  ∧ (Quick.save_file url r).1 = "cookie_" ++ netloc_of url ++ ".json"
  ∧ (netloc_of url).data <:+: (Quick.save_file url r).1.data
  ∧ (Quick.save_file url r).2 = r := by
  refine ⟨rfl, ?_, rfl, rfl, rfl, rfl, rfl, rfl, by decide, rfl, ?_, rfl⟩
  · show (strftime_ymd_hms now).data
      <:+: (("cookie_refresh_" ++ strftime_ymd_hms now ++ ".json" : String)).data
    rw [String.data_append, String.data_append]
    exact List.infix_append _ _ _
  · show (netloc_of url).data <:+: (("cookie_" ++ netloc_of url ++ ".json" : String)).data
    rw [String.data_append, String.data_append]
    exact List.infix_append _ _ _

/-- C8 (counterexample): the claim as stated fails on the simplified script.
For a concrete success result, the document `quick_refresh.py` saves is the
response body verbatim: its keys are exactly the five contract fields and no
`timestamp` key (hence no ISO-8601 timestamp) is present. -/
theorem quick_save_document_lacks_timestamp :
    (Quick.save_file "https://example.com" sampleSuccessBody).2 = sampleSuccessBody
  ∧ ServerBody.keys (Quick.save_file "https://example.com" sampleSuccessBody).2
      = ["status", "hostname", "cookies_count", "user_agent", "generation_time_ms"]
  ∧ "timestamp" ∉ ServerBody.keys (Quick.save_file "https://example.com" sampleSuccessBody).2 := by
  refine ⟨rfl, by decide, by decide⟩
